import Mathlib

/-!
Verification of the Sjavs backend game core: a shallow embedding of the
card model, rules engine, bidding state machine, trick state and
cross bookkeeping, with theorems checking the specification's claims
against the embedded code.

Rust `Option`/`Result` become `Option`/`Except`; `panic!`/`unreachable!`
become `none`; `u8`/`i8` arithmetic is `Nat`/`Int`, with explicit
wrap-around where the embedded operation could overflow.
-/

namespace Sjavs

/-- Card suits (src/game/card.rs, enum Suit). -/
inductive Suit
  | hearts
  | diamonds
  | clubs
  | spades
deriving DecidableEq, Repr, Fintype

/-- Card ranks (src/game/card.rs, enum Rank). -/
inductive Rank
  | seven
  | eight
  | nine
  | ten
  | jack
  | queen
  | king
  | ace
deriving DecidableEq, Repr, Fintype

/-- A playing card (src/game/card.rs, struct Card). -/
structure Card where
  suit : Suit
  rank : Rank
deriving DecidableEq, Repr, Fintype

/-- Display letter of a suit (src/game/card.rs, impl Display for Suit). -/
def Suit.toStr : Suit → String
  | .hearts => "H"
  | .diamonds => "D"
  | .clubs => "C"
  | .spades => "S"

/-- Display mnemonic of a rank (src/game/card.rs, impl Display for Rank). -/
def Rank.toStr : Rank → String
  | .seven => "7"
  | .eight => "8"
  | .nine => "9"
  | .ten => "10"
  | .jack => "J"
  | .queen => "Q"
  | .king => "K"
  | .ace => "A"

/-- ASCII lowercasing of one character, as Rust `to_lowercase` acts on
the ASCII strings this codebase feeds it. -/
def asciiLower (ch : Char) : Char :=
  if 'A' ≤ ch ∧ ch ≤ 'Z' then Char.ofNat (ch.toNat + 32) else ch

/-- String lowercasing over the ASCII domain used by the card codes. -/
def strToLower (s : String) : String :=
  String.mk (s.data.map asciiLower)

/-- Length of a string; the Rust byte length coincides with the character
count on the ASCII card codes. -/
def strLen (s : String) : Nat :=
  s.data.length

/-- Character-level test that `p` starts the string `s`. -/
def strStartsWith (s p : String) : Bool :=
  p.data.isPrefixOf s.data

/-- First `n` characters of `s` (ASCII slice `[..n]`). -/
def strTake (s : String) (n : Nat) : String :=
  String.mk (s.data.take n)

/-- Characters of `s` after the first `n` (ASCII slice `[n..]`). -/
def strDrop (s : String) (n : Nat) : String :=
  String.mk (s.data.drop n)

/-- Suit parsed from a string after lowercasing
(src/game/card.rs, impl From for Suit); the `panic!` arm is `none`. -/
def Suit.fromStr (s : String) : Option Suit :=
  match strToLower s with
  | "hearts" => some .hearts
  | "h" => some .hearts
  | "diamonds" => some .diamonds
  | "d" => some .diamonds
  | "clubs" => some .clubs
  | "c" => some .clubs
  | "spades" => some .spades
  | "s" => some .spades
  | _ => none

/-- Rank parsed from a string (src/game/card.rs, impl From for Rank);
the `panic!` arm is `none`. -/
def Rank.fromStr (s : String) : Option Rank :=
  match s with
  | "7" => some .seven
  | "8" => some .eight
  | "9" => some .nine
  | "10" => some .ten
  | "J" => some .jack
  | "Q" => some .queen
  | "K" => some .king
  | "A" => some .ace
  | _ => none

/-- Card code for storage/transmission (src/game/card.rs, Card::code). -/
def Card.code (c : Card) : String :=
  c.rank.toStr ++ c.suit.toStr

/-- Card parsed from a code (src/game/card.rs, Card::from_code).
Both the explicit `Err` and a panic inside `Suit::from`/`Rank::from`
are modelled as `none`. -/
def Card.from_code (code : String) : Option Card :=
  if strLen code < 2 then
    none
  else
    let p : String × String :=
      if strStartsWith code "10" then ("10", strDrop code 2)
      else (strTake code 1, strDrop code 1)
    match Rank.fromStr p.1, Suit.fromStr p.2 with
    | some rank, some suit => some ⟨suit, rank⟩
    | _, _ => none

/-- Point value of a card (src/game/card.rs, Card::point_value). -/
def Card.point_value (c : Card) : Nat :=
  match c.rank with
  | .ace => 11
  | .king => 4
  | .queen => 3
  | .jack => 2
  | .ten => 10
  | _ => 0

/-- Permanent trump test (src/game/card.rs, Card::is_permanent_trump):
club queen, spade queen and all four jacks. -/
def Card.is_permanent_trump (c : Card) : Bool :=
  (c.suit = Suit.clubs ∧ c.rank = Rank.queen) ∨
  (c.suit = Suit.spades ∧ c.rank = Rank.queen) ∨
  (c.suit = Suit.clubs ∧ c.rank = Rank.jack) ∨
  (c.suit = Suit.spades ∧ c.rank = Rank.jack) ∨
  (c.suit = Suit.hearts ∧ c.rank = Rank.jack) ∨
  (c.suit = Suit.diamonds ∧ c.rank = Rank.jack)

/-- Trump test for a given trump suit (src/game/card.rs, Card::is_trump). -/
def Card.is_trump (c : Card) (trump_suit : Suit) : Bool :=
  c.is_permanent_trump || c.suit = trump_suit

/-- Trump order for comparison (src/game/card.rs, Card::trump_order);
the `unreachable!` arm for a jack among suit trumps is `none`. -/
def Card.trump_order (c : Card) (trump_suit : Suit) : Option Nat :=
  if ¬ (c.is_trump trump_suit) then none
  else if c.suit = Suit.clubs ∧ c.rank = Rank.queen then some 20
  else if c.suit = Suit.spades ∧ c.rank = Rank.queen then some 19
  else if c.suit = Suit.clubs ∧ c.rank = Rank.jack then some 18
  else if c.suit = Suit.spades ∧ c.rank = Rank.jack then some 17
  else if c.suit = Suit.hearts ∧ c.rank = Rank.jack then some 16
  else if c.suit = Suit.diamonds ∧ c.rank = Rank.jack then some 15
  else if c.suit = trump_suit then
    match c.rank with
    | .ace => some 14
    | .king => some 13
    | .queen => some 12
    | .ten => some 11
    | .nine => some 10
    | .eight => some 9
    | .seven => some 8
    | .jack => none
  else none

/-- Non-trump order for comparison (src/game/card.rs, Card::non_trump_order). -/
def Card.non_trump_order (c : Card) : Nat :=
  match c.rank with
  | .ace => 14
  | .king => 13
  | .queen => 12
  | .jack => 11
  | .ten => 10
  | .nine => 9
  | .eight => 8
  | .seven => 7

/-- Trick-taking comparison (src/game/card.rs, Card::beats). -/
def Card.beats (self other : Card) (trump_suit lead_suit : Suit) : Bool :=
  match self.trump_order trump_suit, other.trump_order trump_suit with
  | some self_order, some other_order => self_order > other_order
  | some _, none => true
  | none, some _ => false
  | none, none =>
    if self.suit = lead_suit ∧ other.suit ≠ lead_suit then true
    else if self.suit ≠ lead_suit ∧ other.suit = lead_suit then false
    else if self.suit = lead_suit ∧ other.suit = lead_suit then
      self.non_trump_order > other.non_trump_order
    else false

/-! Spec-side card comparison, written from the specification's words for
the refinement check of the trick-taking comparison. -/

/-- Spec-side rank of a permanent trump in the order stated by the spec:
Q clubs above Q spades above J clubs above J spades above J hearts
above J diamonds. -/
def specPermRank (c : Card) : Option Nat :=
  if c.suit = Suit.clubs ∧ c.rank = Rank.queen then some 6
  else if c.suit = Suit.spades ∧ c.rank = Rank.queen then some 5
  else if c.suit = Suit.clubs ∧ c.rank = Rank.jack then some 4
  else if c.suit = Suit.spades ∧ c.rank = Rank.jack then some 3
  else if c.suit = Suit.hearts ∧ c.rank = Rank.jack then some 2
  else if c.suit = Suit.diamonds ∧ c.rank = Rank.jack then some 1
  else none

/-- Spec-side rank of a suit trump: A,K,Q,10,9,8,7 from high to low. -/
def specSuitTrumpRank (r : Rank) : Nat :=
  match r with
  | .ace => 7
  | .king => 6
  | .queen => 5
  | .ten => 4
  | .nine => 3
  | .eight => 2
  | .seven => 1
  | .jack => 0

/-- Spec-side: a card is trump iff it is a permanent trump or its suit is
the trump suit. -/
def specIsTrump (c : Card) (trump_suit : Suit) : Bool :=
  (specPermRank c).isSome || c.suit = trump_suit

/-- Spec-side trump order: permanent trumps, in their fixed order, above
suit trumps ordered A,K,Q,10,9,8,7. -/
def specTrumpRank (c : Card) (trump_suit : Suit) : Option Nat :=
  match specPermRank c with
  | some k => some (100 + k)
  | none =>
    if c.suit = trump_suit then some (specSuitTrumpRank c.rank) else none

/-- Spec-side non-trump rank, A highest down to 7 lowest. -/
def specNonTrumpRank (r : Rank) : Nat :=
  match r with
  | .ace => 8
  | .king => 7
  | .queen => 6
  | .jack => 5
  | .ten => 4
  | .nine => 3
  | .eight => 2
  | .seven => 1

/-- Spec-side: self has strictly higher spec trump order than other. -/
def specTrumpGt (self other : Card) (trump_suit : Suit) : Bool :=
  match specTrumpRank self trump_suit, specTrumpRank other trump_suit with
  | some a, some b => decide (a > b)
  | _, _ => false

/-- Spec-side trick comparison, literally as the spec describes `beats`:
both trump and self higher in the trump order; or self trump, other not;
or neither trump and either only self follows the lead suit, or both
follow and self has the higher non-trump rank; otherwise false. -/
def specBeats (self other : Card) (trump_suit lead_suit : Suit) : Bool :=
  (specIsTrump self trump_suit && specIsTrump other trump_suit &&
    specTrumpGt self other trump_suit) ||
  (specIsTrump self trump_suit && !(specIsTrump other trump_suit)) ||
  (!(specIsTrump self trump_suit) && !(specIsTrump other trump_suit) &&
    ((decide (self.suit = lead_suit) && !(decide (other.suit = lead_suit))) ||
     (decide (self.suit = lead_suit) && decide (other.suit = lead_suit) &&
       decide (specNonTrumpRank self.rank > specNonTrumpRank other.rank))))

/-- C7: for every pair of distinct cards of the 32-card deck and every
(trump suit, lead suit), the implemented `Card.beats` agrees exactly with
the comparison the specification describes: trump-order comparison among
trumps (permanent trumps above suit trumps), trump over non-trump, and
lead-suit / non-trump-rank comparison among non-trumps, false otherwise. -/
theorem beats_iff_spec (c1 c2 : Card) (trump_suit lead_suit : Suit)
    (h : c1 ≠ c2) :
    Card.beats c1 c2 trump_suit lead_suit = specBeats c1 c2 trump_suit lead_suit := by
  revert h
  revert c1 c2 trump_suit lead_suit
  decide

/-- Witness for C7 at a concrete pair: the heart jack (permanent trump)
beats the heart ace when hearts is the trump and lead suit. -/
theorem beats_iff_spec_witness :
    (Card.mk Suit.hearts Rank.jack ≠ Card.mk Suit.hearts Rank.ace) ∧
    Card.beats (Card.mk Suit.hearts Rank.jack) (Card.mk Suit.hearts Rank.ace)
        Suit.hearts Suit.hearts =
      specBeats (Card.mk Suit.hearts Rank.jack) (Card.mk Suit.hearts Rank.ace)
        Suit.hearts Suit.hearts :=
  ⟨by decide,
   beats_iff_spec (Card.mk Suit.hearts Rank.jack) (Card.mk Suit.hearts Rank.ace)
     Suit.hearts Suit.hearts (by decide)⟩

/-- C9: parsing a card's code yields the card back, for every one of the
32 cards, including the two-character rank 10. -/
theorem from_code_code_id (c : Card) : Card.from_code c.code = some c := by
  revert c
  decide

/-! ## Trick state (src/game/trick.rs) -/

/-- Current state of a trick in progress (src/game/trick.rs, TrickState). -/
structure TrickState where
  trick_number : Nat
  lead_suit : Option Suit
  cards_played : List (Nat × Card)
  current_player : Nat
  trick_winner : Option Nat
  is_complete : Bool
  game_id : String
  trump_suit : String
deriving DecidableEq, Repr

/-- Winner of a complete trick (src/game/trick.rs,
TrickState::determine_winner): the `beats` reducer over the played cards.
The source's panics (incomplete trick, bad trump string, missing lead
suit) are modelled as `none`. -/
def TrickState.determine_winner (t : TrickState) : Option Nat :=
  if t.cards_played.length ≠ 4 then none
  else
    match Suit.fromStr t.trump_suit, t.lead_suit with
    | some trump_suit, some lead_suit =>
      match t.cards_played with
      | [] => none
      | c0 :: rest =>
        some (rest.foldl
          (fun best pc =>
            if (pc.2).beats best.2 trump_suit lead_suit then pc else best)
          c0).1
    | _, _ => none

/-- Play a card to the trick (src/game/trick.rs, TrickState::play_card).
The Rust method mutates `&mut self` and returns `Result<(), String>`; the
embedding returns the result together with the state after the call, so an
early error leaves the state component untouched. A panic inside
`determine_winner` is modelled by storing `none` as the winner. -/
def TrickState.play_card (t : TrickState) (player_position : Nat) (card : Card) :
    Except String Unit × TrickState :=
  if player_position ≠ t.current_player then
    (Except.error ("Not your turn. Current player is " ++ toString t.current_player), t)
  else if t.is_complete then
    (Except.error "Trick is already complete", t)
  else if 4 ≤ t.cards_played.length then
    (Except.error "Trick already has 4 cards", t)
  else if (t.cards_played ++ [(player_position, card)]).length = 4 then
    (Except.ok (),
      { t with
        lead_suit := if t.cards_played.isEmpty then some card.suit else t.lead_suit
        cards_played := t.cards_played ++ [(player_position, card)]
        is_complete := true
        trick_winner :=
          TrickState.determine_winner
            { t with
              lead_suit := if t.cards_played.isEmpty then some card.suit else t.lead_suit
              cards_played := t.cards_played ++ [(player_position, card)] } })
  else
    (Except.ok (),
      { t with
        lead_suit := if t.cards_played.isEmpty then some card.suit else t.lead_suit
        cards_played := t.cards_played ++ [(player_position, card)]
        current_player := (t.current_player + 1) % 4 })

/-- Legal cards for a player given the current trick (src/game/trick.rs,
TrickState::get_legal_cards): the hand filtered to the lead suit when that
filter is non-empty, the whole hand otherwise. -/
def TrickState.get_legal_cards (t : TrickState) (player_hand : List Card) : List Card :=
  match t.lead_suit with
  | some lead_suit =>
    let same_suit_cards := player_hand.filter (fun card => decide (card.suit = lead_suit))
    if ¬ same_suit_cards.isEmpty then same_suit_cards else player_hand
  | none => player_hand

/-- Spec-side legal-card set as the specification words it: the cards of
the hand whose suit equals the lead suit AND that are not permanent
trumps, when that subset is non-empty; otherwise the whole hand. -/
def specLegalCards (lead_suit : Suit) (hand : List Card) : List Card :=
  let follow := hand.filter
    (fun card => decide (card.suit = lead_suit) && !(card.is_permanent_trump))
  if follow.isEmpty then hand else follow

/-- A trick with hearts led and spades trump, for checking follow-suit
validation on a hand holding the heart jack. -/
def heartLedTrick : TrickState :=
  { trick_number := 1
    lead_suit := some Suit.hearts
    cards_played := [(0, Card.mk Suit.hearts Rank.seven)]
    current_player := 1
    trick_winner := none
    is_complete := false
    game_id := "game1"
    trump_suit := "spades" }

/-- A hand holding the heart jack (a permanent trump) and the spade seven. -/
def jackHand : List Card :=
  [Card.mk Suit.hearts Rank.jack, Card.mk Suit.spades Rank.seven]

/-- C2: the legal-card set the play-card handler validates against is
`TrickState::get_legal_cards`, which filters by raw suit only. On a hand
holding the heart jack (a permanent trump) and the spade seven, with
hearts led and spades trump, the code forces the permanent trump to be
played as a heart, while the specification's legal set (permanent trumps
excluded from the follow-suit obligation, so the follow subset is empty)
is the whole hand. -/
theorem get_legal_cards_forces_permanent_trump :
    heartLedTrick.get_legal_cards jackHand = [Card.mk Suit.hearts Rank.jack] ∧
    specLegalCards Suit.hearts jackHand = jackHand ∧
    heartLedTrick.get_legal_cards jackHand ≠ specLegalCards Suit.hearts jackHand := by
  decide

/-- Helper: a complete 4-card trick with a parsable trump string and a set
lead suit always has a winner. -/
theorem determine_winner_isSome (t : TrickState) (h4 : t.cards_played.length = 4)
    (hts : (Suit.fromStr t.trump_suit).isSome) (hls : t.lead_suit.isSome) :
    (t.determine_winner).isSome := by
  unfold TrickState.determine_winner
  have hguard : ¬ (t.cards_played.length ≠ 4) := by simp [h4]
  rw [if_neg hguard]
  obtain ⟨s, hs⟩ := Option.isSome_iff_exists.mp hts
  obtain ⟨l, hl⟩ := Option.isSome_iff_exists.mp hls
  simp only [hs, hl]
  cases hcp : t.cards_played with
  | nil => rw [hcp] at h4; simp at h4
  | cons c0 rest => simp

/-- C10: `TrickState::play_card` is atomic on error and performs exactly
the documented update on success: when the position is not the current
player, or the trick is complete, or four cards are already down, it
returns an error and the state is unchanged; on success it appends exactly
one (position, card) entry, sets the lead suit on the first card, and
either advances the current player to (position+1) mod 4 or, on the
fourth card, marks the trick complete with a winner (the winner exists
whenever the trump string parses and the lead suit is set for a non-empty
trick). -/
theorem play_card_spec (t : TrickState) (pos : Nat) (card : Card) :
    ((pos ≠ t.current_player ∨ t.is_complete = true ∨ 4 ≤ t.cards_played.length) →
      (t.play_card pos card).2 = t ∧ ∃ e, (t.play_card pos card).1 = Except.error e) ∧
    ((t.play_card pos card).1 = Except.ok () →
      (t.play_card pos card).2.cards_played = t.cards_played ++ [(pos, card)] ∧
      (t.play_card pos card).2.lead_suit =
        (if t.cards_played.isEmpty then some card.suit else t.lead_suit) ∧
      (if t.cards_played.length + 1 = 4 then
        (t.play_card pos card).2.is_complete = true ∧
        ((Suit.fromStr t.trump_suit).isSome →
          (t.cards_played ≠ [] → t.lead_suit.isSome) →
          ((t.play_card pos card).2.trick_winner).isSome)
      else
        (t.play_card pos card).2.is_complete = false ∧
        (t.play_card pos card).2.current_player = (pos + 1) % 4)) := by
  have hlen : (t.cards_played ++ [(pos, card)]).length = t.cards_played.length + 1 := by
    simp
  constructor
  · intro h
    unfold TrickState.play_card
    rcases h with h | h | h
    · rw [if_pos h]
      exact ⟨rfl, _, rfl⟩
    · by_cases hp : pos ≠ t.current_player
      · rw [if_pos hp]; exact ⟨rfl, _, rfl⟩
      · rw [if_neg hp, if_pos h]; exact ⟨rfl, _, rfl⟩
    · by_cases hp : pos ≠ t.current_player
      · rw [if_pos hp]; exact ⟨rfl, _, rfl⟩
      · rw [if_neg hp]
        by_cases hc : t.is_complete = true
        · rw [if_pos hc]; exact ⟨rfl, _, rfl⟩
        · rw [if_neg hc, if_pos h]; exact ⟨rfl, _, rfl⟩
  · intro hok
    unfold TrickState.play_card at hok ⊢
    by_cases hp : pos ≠ t.current_player
    · rw [if_pos hp] at hok; exact absurd hok (by simp)
    rw [if_neg hp] at hok ⊢
    by_cases hc : t.is_complete = true
    · rw [if_pos hc] at hok; exact absurd hok (by simp)
    rw [if_neg hc] at hok ⊢
    by_cases hn : 4 ≤ t.cards_played.length
    · rw [if_pos hn] at hok; exact absurd hok (by simp)
    rw [if_neg hn] at hok ⊢
    by_cases h4 : (t.cards_played ++ [(pos, card)]).length = 4
    · rw [if_pos h4]
      have h4' : t.cards_played.length + 1 = 4 := by rw [← hlen]; exact h4
      refine ⟨rfl, rfl, ?_⟩
      rw [if_pos h4']
      refine ⟨rfl, ?_⟩
      intro hts hls
      have hlead : (if t.cards_played.isEmpty then some card.suit else t.lead_suit).isSome := by
        by_cases hnil : t.cards_played = []
        · rw [hnil]; simp
        · have hsome := hls hnil
          have hne : t.cards_played.isEmpty = false := by
            cases hcp : t.cards_played with
            | nil => exact absurd hcp hnil
            | cons a l => rfl
          simp only [hne, Bool.false_eq_true, if_false]
          exact hsome
      exact determine_winner_isSome _ (by simpa using h4) hts hlead
    · rw [if_neg h4]
      have h4' : ¬ t.cards_played.length + 1 = 4 := by rw [← hlen]; exact h4
      refine ⟨rfl, rfl, ?_⟩
      rw [if_neg h4']
      refine ⟨Bool.eq_false_iff.mpr hc, ?_⟩
      rw [Decidable.not_not.mp hp]

/-- Witness for C10: on a concrete trick awaiting player 1, an attempted
play by player 3 is rejected with the state unchanged. -/
theorem play_card_spec_witness :
    (heartLedTrick.play_card 3 (Card.mk Suit.spades Rank.seven)).2 = heartLedTrick :=
  ((play_card_spec heartLedTrick 3 (Card.mk Suit.spades Rank.seven)).1
    (Or.inl (by decide))).1

/-! ## Sjavs scoring (src/game/scoring.rs) -/

/-- Types of Sjavs game results (src/game/scoring.rs, enum SjavsResult). -/
inductive SjavsResult
  | trumpTeamWin
  | opponentWin
  | opponentDoubleWin
  | vol
  | individualVol
  | opponentVol
  | tie
deriving DecidableEq, Repr

/-- Final tallies of a completed game (src/game/scoring.rs, SjavsScoring). -/
structure SjavsScoring where
  trump_team_points : Nat
  opponent_team_points : Nat
  trump_team_tricks : Nat
  opponent_team_tricks : Nat
  trump_suit : String
  individual_vol : Bool
deriving DecidableEq, Repr

/-- Result of a completed Sjavs game (src/game/scoring.rs, GameResult). -/
structure GameResult where
  trump_team_score : Nat
  opponent_team_score : Nat
  result_type : SjavsResult
  description : String
deriving DecidableEq, Repr

/-- Points must add up to 120 (src/game/scoring.rs,
SjavsScoring::validate_total_points). -/
def SjavsScoring.validate_total_points (s : SjavsScoring) : Bool :=
  s.trump_team_points + s.opponent_team_points == 120

/-- Authentic Sjavs scoring (src/game/scoring.rs,
SjavsScoring::calculate_game_result). The `unreachable!` arm for a point
total above 120 is modelled as `none`. -/
def SjavsScoring.calculate_game_result (s : SjavsScoring) : Option GameResult :=
  if s.trump_team_tricks = 8 then
    if s.individual_vol then
      some
        { trump_team_score := if s.trump_suit == "clubs" then 24 else 16
          opponent_team_score := 0
          result_type := .individualVol
          description := "Individual Vol - " ++
            toString (if s.trump_suit == "clubs" then (24 : Nat) else 16) ++ " points for trump team" }
    else
      some
        { trump_team_score := if s.trump_suit == "clubs" then 16 else 12
          opponent_team_score := 0
          result_type := .vol
          description := "Vol - " ++
            toString (if s.trump_suit == "clubs" then (16 : Nat) else 12) ++ " points for trump team" }
  else if s.opponent_team_tricks = 8 then
    some
      { trump_team_score := 0
        opponent_team_score := 16
        result_type := .opponentVol
        description := "Opponents won all tricks - 16 points" }
  else if s.trump_team_points = 60 ∧ s.opponent_team_points = 60 then
    some
      { trump_team_score := 0
        opponent_team_score := 0
        result_type := .tie
        description := "Tie at 60-60 - no score, next game worth 2 extra points" }
  else if 90 ≤ s.trump_team_points ∧ s.trump_team_points ≤ 120 then
    some
      { trump_team_score := if s.trump_suit == "clubs" then 8 else 4
        opponent_team_score := 0
        result_type := .trumpTeamWin
        description := "Trump team 90-120 points - " ++
          toString (if s.trump_suit == "clubs" then (8 : Nat) else 4) ++ " points" }
  else if 61 ≤ s.trump_team_points ∧ s.trump_team_points ≤ 89 then
    some
      { trump_team_score := if s.trump_suit == "clubs" then 4 else 2
        opponent_team_score := 0
        result_type := .trumpTeamWin
        description := "Trump team 61-89 points - " ++
          toString (if s.trump_suit == "clubs" then (4 : Nat) else 2) ++ " points" }
  else if 31 ≤ s.trump_team_points ∧ s.trump_team_points ≤ 59 then
    some
      { trump_team_score := 0
        opponent_team_score := if s.trump_suit == "clubs" then 8 else 4
        result_type := .opponentWin
        description := "Trump team 31-59 points (avoided double) - opponents get " ++
          toString (if s.trump_suit == "clubs" then (8 : Nat) else 4) ++ " points" }
  else if 1 ≤ s.trump_team_points ∧ s.trump_team_points ≤ 30 then
    some
      { trump_team_score := 0
        opponent_team_score := if s.trump_suit == "clubs" then 16 else 8
        result_type := .opponentDoubleWin
        description := "Trump team 0-30 points (double loss) - opponents get " ++
          toString (if s.trump_suit == "clubs" then (16 : Nat) else 8) ++ " points" }
  else if s.trump_team_points = 0 then
    some
      { trump_team_score := 0
        opponent_team_score := if s.trump_suit == "clubs" then 16 else 8
        result_type := .opponentDoubleWin
        description := "Trump team 0 points - opponents get " ++
          toString (if s.trump_suit == "clubs" then (16 : Nat) else 8) ++ " points" }
  else
    none

/-- Spec-side outcome table (trump-team score, opponent score), written
from the claim's listing of the Sjavs scoring table in its order:
individual Vol, team Vol, opponent Vol, the 60-60 tie, then the
trump-point ranges. -/
def specScoreTable (T O tt ot : Nat) (is_clubs individual_vol : Bool) : Nat × Nat :=
  if tt = 8 ∧ individual_vol then (if is_clubs then 24 else 16, 0)
  else if tt = 8 then (if is_clubs then 16 else 12, 0)
  else if ot = 8 then (0, 16)
  else if T = 60 ∧ O = 60 then (0, 0)
  else if 90 ≤ T ∧ T ≤ 120 then (if is_clubs then 8 else 4, 0)
  else if 61 ≤ T ∧ T ≤ 89 then (if is_clubs then 4 else 2, 0)
  else if 31 ≤ T ∧ T ≤ 59 then (0, if is_clubs then 8 else 4)
  else (0, if is_clubs then 16 else 8)

set_option maxHeartbeats 1600000 in
/-- C5: for every completed game whose points sum to 120 and whose tricks
sum to 8, `calculate_game_result` returns exactly the outcome of the Sjavs
scoring table, with the other team's outcome score 0 in every non-tie
case. -/
theorem calculate_game_result_matches_spec_table (s : SjavsScoring)
    (hp : s.trump_team_points + s.opponent_team_points = 120)
    (ht : s.trump_team_tricks + s.opponent_team_tricks = 8) :
    ∃ r, s.calculate_game_result = some r ∧
      (r.trump_team_score, r.opponent_team_score) =
        specScoreTable s.trump_team_points s.opponent_team_points
          s.trump_team_tricks s.opponent_team_tricks
          (s.trump_suit == "clubs") s.individual_vol := by
  unfold SjavsScoring.calculate_game_result specScoreTable
  split_ifs <;> first | exact ⟨_, rfl, rfl⟩ | omega | tauto

/-- Witness for C5: a 75-45 game with 5 tricks to the trump team in hearts
obeys the table. -/
theorem calculate_game_result_matches_spec_table_witness :
    ∃ r, (SjavsScoring.mk 75 45 5 3 "hearts" false).calculate_game_result = some r ∧
      (r.trump_team_score, r.opponent_team_score) =
        specScoreTable 75 45 5 3 (("hearts" : String) == "clubs") false :=
  calculate_game_result_matches_spec_table (SjavsScoring.mk 75 45 5 3 "hearts" false)
    (by decide) (by decide)

/-! ## Cross / rubber bookkeeping (src/game/cross.rs) -/

/-- Wrap-around of an `i8` value into [-128, 127]. -/
def wrap8 (x : Int) : Int :=
  (x + 128) % 256 - 128

/-- `u8` addition with wrap-around. -/
def u8add (a b : Nat) : Nat :=
  (a + b) % 256

/-- The Rust cast `u8 as i8`. -/
def u8toI8 (n : Nat) : Int :=
  if n % 256 < 128 then ((n % 256 : Nat) : Int) else ((n % 256 : Nat) : Int) - 256

/-- Teams in cross scoring (src/game/cross.rs, enum CrossTeam). -/
inductive CrossTeam
  | trumpTeam
  | opponentTeam
deriving DecidableEq, Repr

/-- Cross state tracking for a match (src/game/cross.rs, CrossState).
The two team scores are `i8`, the counters `u8`. -/
structure CrossState where
  trump_team_score : Int
  opponent_team_score : Int
  trump_team_crosses : Nat
  opponent_team_crosses : Nat
  next_game_bonus : Nat
  match_id : String
  cross_complete : Bool
deriving DecidableEq, Repr

/-- Fresh cross state (src/game/cross.rs, CrossState::new). -/
def CrossState.new (match_id : String) : CrossState :=
  { trump_team_score := 24
    opponent_team_score := 24
    trump_team_crosses := 0
    opponent_team_crosses := 0
    next_game_bonus := 0
    match_id := match_id
    cross_complete := false }

/-- Information about a cross winner (src/game/cross.rs, CrossWinner). -/
structure CrossWinner where
  winning_team : CrossTeam
  double_victory : Bool
  final_score : Int × Int
  crosses_won : Nat
deriving DecidableEq, Repr

/-- Result of applying a game result to the cross state
(src/game/cross.rs, CrossResult). -/
structure CrossResult where
  trump_team_old_score : Int
  opponent_team_old_score : Int
  trump_team_new_score : Int
  opponent_team_new_score : Int
  cross_won : Option CrossWinner
  bonus_applied : Nat
  next_game_bonus : Nat
  cross_complete : Bool
deriving DecidableEq, Repr

/-- Completion check (src/game/cross.rs, CrossState::check_cross_completion).
The Rust method mutates `&mut self`; the embedding returns the state after
the call together with the optional winner. -/
def CrossState.check_cross_completion (c : CrossState) : CrossState × Option CrossWinner :=
  if c.trump_team_score ≤ 0 then
    ({ c with trump_team_crosses := u8add c.trump_team_crosses 1, cross_complete := true },
      some
        { winning_team := .trumpTeam
          double_victory := c.opponent_team_score == 24
          final_score := (c.trump_team_score, c.opponent_team_score)
          crosses_won := u8add c.trump_team_crosses 1 })
  else if c.opponent_team_score ≤ 0 then
    ({ c with opponent_team_crosses := u8add c.opponent_team_crosses 1, cross_complete := true },
      some
        { winning_team := .opponentTeam
          double_victory := c.trump_team_score == 24
          final_score := (c.trump_team_score, c.opponent_team_score)
          crosses_won := u8add c.opponent_team_crosses 1 })
  else
    (c, none)

/-- Apply a game result to the cross scores (src/game/cross.rs,
CrossState::apply_game_result). The Rust method mutates `&mut self`; the
embedding returns the state after the call together with the returned
`CrossResult`. The `i8` subtractions carry the release-mode wrap-around. -/
def CrossState.apply_game_result (c : CrossState) (game_result : GameResult) :
    CrossState × CrossResult :=
  let trump_team_points : Nat := u8add game_result.trump_team_score c.next_game_bonus
  let opponent_team_points : Nat := game_result.opponent_team_score
  let bonus_applied := c.next_game_bonus
  if game_result.trump_team_score = 0 ∧ game_result.opponent_team_score = 0 then
    ({ c with next_game_bonus := 2 },
      { trump_team_old_score := c.trump_team_score
        opponent_team_old_score := c.opponent_team_score
        trump_team_new_score := c.trump_team_score
        opponent_team_new_score := c.opponent_team_score
        cross_won := none
        bonus_applied := bonus_applied
        next_game_bonus := 2
        cross_complete := false })
  else
    let c1 : CrossState :=
      { c with
        next_game_bonus := 0
        trump_team_score := wrap8 (c.trump_team_score - u8toI8 trump_team_points)
        opponent_team_score := wrap8 (c.opponent_team_score - u8toI8 opponent_team_points) }
    let checked := c1.check_cross_completion
    (checked.1,
      { trump_team_old_score := c.trump_team_score
        opponent_team_old_score := c.opponent_team_score
        trump_team_new_score := checked.1.trump_team_score
        opponent_team_new_score := checked.1.opponent_team_score
        cross_won := checked.2
        bonus_applied := bonus_applied
        next_game_bonus := 0
        cross_complete := checked.1.cross_complete })

/-- The tie game result produced by a 60-60 game. -/
def tieResult : GameResult :=
  { trump_team_score := 0
    opponent_team_score := 0
    result_type := .tie
    description := "Tie at 60-60 - no score, next game worth 2 extra points" }

/-- A normal 4-point trump-team win in a non-clubs suit. -/
def fourPointWin : GameResult :=
  { trump_team_score := 4
    opponent_team_score := 0
    result_type := .trumpTeamWin
    description := "Trump team 90-120 points - 4 points" }

/-- Cross state after a 60-60 tie has been applied to a fresh state. -/
def crossAfterTie : CrossState :=
  ((CrossState.new "match1").apply_game_result tieResult).1

/-- C3 counterexample: after a 60-60 tie (bonus 2) a normal 4-point
trump-team win reduces the TRUMP (scoring) team's own countdown counter
by 4+2=6 (24 to 18) and leaves the opponents' counter untouched at 24 -
the delta is not applied to the opponents' counter, and it is the game
winner's counter, not the loser's, that is reduced. -/
theorem cross_delta_hits_winner_counter :
    crossAfterTie.next_game_bonus = 2 ∧
    ((crossAfterTie.apply_game_result fourPointWin).1.trump_team_score = 18 ∧
     (crossAfterTie.apply_game_result fourPointWin).1.opponent_team_score = 24) ∧
    ¬ ((crossAfterTie.apply_game_result fourPointWin).1.opponent_team_score =
        crossAfterTie.opponent_team_score - 6 ∧
       (crossAfterTie.apply_game_result fourPointWin).1.trump_team_score =
        crossAfterTie.trump_team_score) := by
  decide

/-- Helper: the completion check never changes the scores or the bonus. -/
theorem check_cross_completion_scores (c : CrossState) :
    (c.check_cross_completion).1.trump_team_score = c.trump_team_score ∧
    (c.check_cross_completion).1.opponent_team_score = c.opponent_team_score ∧
    (c.check_cross_completion).1.next_game_bonus = c.next_game_bonus := by
  unfold CrossState.check_cross_completion
  split_ifs <;> exact ⟨rfl, rfl, rfl⟩

/-- C3 (amended): for every non-tie game result, within `i8` range the
team named by the non-zero outcome score has its own countdown counter
reduced - the trump team's counter by trump score plus any carried bonus,
the opponents' counter by the opponent score - and the pending bonus is
cleared; since exactly one outcome score is non-zero, the game winner's
counter drops and, absent a pending bonus, the other counter is
unchanged. -/
theorem apply_game_result_nontie (c : CrossState) (g : GameResult)
    (hnt : ¬ (g.trump_team_score = 0 ∧ g.opponent_team_score = 0))
    (hb : g.trump_team_score + c.next_game_bonus < 128)
    (ho : g.opponent_team_score < 128)
    (hts : c.trump_team_score ≤ 127)
    (hos : c.opponent_team_score ≤ 127)
    (htl : -(128 : Int) ≤ c.trump_team_score -
      ((g.trump_team_score : Int) + (c.next_game_bonus : Int)))
    (hol : -(128 : Int) ≤ c.opponent_team_score - (g.opponent_team_score : Int)) :
    (c.apply_game_result g).1.trump_team_score =
      c.trump_team_score - ((g.trump_team_score : Int) + (c.next_game_bonus : Int)) ∧
    (c.apply_game_result g).1.opponent_team_score =
      c.opponent_team_score - (g.opponent_team_score : Int) ∧
    (c.apply_game_result g).1.next_game_bonus = 0 := by
  unfold CrossState.apply_game_result
  rw [if_neg hnt]
  have hu : u8add g.trump_team_score c.next_game_bonus =
      g.trump_team_score + c.next_game_bonus := by
    unfold u8add; omega
  have hi : u8toI8 (g.trump_team_score + c.next_game_bonus) =
      ((g.trump_team_score : Int) + (c.next_game_bonus : Int)) := by
    unfold u8toI8
    have h1 : (g.trump_team_score + c.next_game_bonus) % 256 =
        g.trump_team_score + c.next_game_bonus := by omega
    rw [h1]
    rw [if_pos (by omega)]
    push_cast
    ring
  have hio : u8toI8 g.opponent_team_score = (g.opponent_team_score : Int) := by
    unfold u8toI8
    have h1 : g.opponent_team_score % 256 = g.opponent_team_score := by omega
    rw [h1]
    rw [if_pos (by omega)]
  have hw1 : wrap8 (c.trump_team_score -
      ((g.trump_team_score : Int) + (c.next_game_bonus : Int))) =
      c.trump_team_score - ((g.trump_team_score : Int) + (c.next_game_bonus : Int)) := by
    unfold wrap8; omega
  have hw2 : wrap8 (c.opponent_team_score - (g.opponent_team_score : Int)) =
      c.opponent_team_score - (g.opponent_team_score : Int) := by
    unfold wrap8; omega
  obtain ⟨e1, e2, e3⟩ := check_cross_completion_scores
    { c with
      next_game_bonus := 0
      trump_team_score :=
        wrap8 (c.trump_team_score - u8toI8 (u8add g.trump_team_score c.next_game_bonus))
      opponent_team_score :=
        wrap8 (c.opponent_team_score - u8toI8 g.opponent_team_score) }
  refine ⟨?_, ?_, ?_⟩
  · rw [e1]; simp only [hu, hi, hw1]
  · rw [e2]; simp only [hio, hw2]
  · rw [e3]

/-- Witness for C3 (amended) at a concrete input: a fresh cross state and
a plain 4-point win (no pending bonus): the trump counter drops to 20,
the opponents' stays 24. -/
theorem apply_game_result_nontie_witness :
    ((CrossState.new "m").apply_game_result fourPointWin).1.trump_team_score =
      (24 : Int) - ((4 : Nat) + (0 : Nat)) ∧
    ((CrossState.new "m").apply_game_result fourPointWin).1.opponent_team_score =
      (24 : Int) - ((0 : Nat) : Int) ∧
    ((CrossState.new "m").apply_game_result fourPointWin).1.next_game_bonus = 0 :=
  apply_game_result_nontie (CrossState.new "m") fourPointWin
    (by decide) (by decide) (by decide) (by decide) (by decide) (by decide) (by decide)

/-! ## Match record and bidding (src/redis/normal_match/id.rs) -/

/-- Status of a normal match (src/redis/normal_match/id.rs,
NormalMatchStatus). -/
inductive NormalMatchStatus
  | waiting
  | dealing
  | bidding
  | playing
  | completed
  | cancelled
deriving DecidableEq, Repr

/-- A normal match record (src/redis/normal_match/id.rs, NormalMatch). -/
structure NormalMatch where
  id : String
  pin : Nat
  status : NormalMatchStatus
  number_of_crosses : Nat
  current_cross : Nat
  created_timestamp : Nat
  dealer_position : Option Nat
  current_bidder : Option Nat
  current_leader : Option Nat
  trump_suit : Option String
  trump_declarer : Option Nat
  highest_bid_length : Option Nat
  highest_bidder : Option Nat
  highest_bid_suit : Option String
deriving DecidableEq, Repr

/-- Turn check for bidding (src/redis/normal_match/id.rs,
NormalMatch::is_player_turn_to_bid). -/
def NormalMatch.is_player_turn_to_bid (m : NormalMatch) (player_position : Nat) : Bool :=
  m.status == .bidding && m.current_bidder == some player_position

/-- Bid legality (src/redis/normal_match/id.rs, NormalMatch::is_valid_bid). -/
def NormalMatch.is_valid_bid (m : NormalMatch) (player_position bid_length : Nat)
    (bid_suit : String) : Except String Unit :=
  if ¬ (m.is_player_turn_to_bid player_position) then
    Except.error "Not your turn to bid"
  else if m.status ≠ .bidding then
    Except.error "Game is not in bidding phase"
  else if bid_length < 5 ∨ 8 < bid_length then
    Except.error "Bid must be between 5 and 8 trumps"
  else if ¬ (["hearts", "diamonds", "clubs", "spades"].contains bid_suit) then
    Except.error "Invalid trump suit"
  else
    match m.highest_bid_length with
    | some current_highest =>
      if current_highest < bid_length then
        Except.ok ()
      else if bid_length = current_highest then
        if bid_suit = "clubs" ∧ m.highest_bid_suit.getD "" ≠ "clubs" then
          Except.ok ()
        else if bid_suit = "clubs" ∧ m.highest_bid_suit.getD "" = "clubs" then
          Except.error "Cannot bid clubs to match clubs"
        else
          Except.error "Bid must be higher than current bid, or clubs to match"
      else
        Except.error ("Bid must be at least " ++ toString (current_highest + 1) ++ " trumps")
    | none => Except.ok ()

/-- Record a bid and advance the bidder (src/redis/normal_match/id.rs,
NormalMatch::make_bid). Returns the completion flag (always false)
together with the state after the call. -/
def NormalMatch.make_bid (m : NormalMatch) (player_position bid_length : Nat)
    (bid_suit : String) : Except String (Bool × NormalMatch) :=
  match m.is_valid_bid player_position bid_length bid_suit with
  | Except.error e => Except.error e
  | Except.ok _ =>
    Except.ok (false,
      { m with
        highest_bid_length := some bid_length
        highest_bidder := some player_position
        highest_bid_suit := some bid_suit
        current_bidder := some ((player_position + 1) % 4) })

/-- Record a pass (src/redis/normal_match/id.rs, NormalMatch::make_pass).
Returns the `(all_passed, bidding_complete)` pair together with the state
after the call. -/
def NormalMatch.make_pass (m : NormalMatch) (player_position : Nat) :
    Except String ((Bool × Bool) × NormalMatch) :=
  if ¬ (m.is_player_turn_to_bid player_position) then
    Except.error "Not your turn to bid"
  else if m.status ≠ .bidding then
    Except.error "Game is not in bidding phase"
  else
    let m1 := { m with current_bidder := some ((player_position + 1) % 4) }
    match m1.highest_bidder with
    | none =>
      match m1.dealer_position with
      | some dealer =>
        if m1.current_bidder = some ((dealer + 1) % 4) then
          Except.ok ((true, false), m1)
        else
          Except.ok ((false, false), m1)
      | none => Except.ok ((false, false), m1)
    | some bidder =>
      if m1.current_bidder = some ((bidder + 1) % 4) then
        Except.ok ((false, true), m1)
      else
        Except.ok ((false, false), m1)

/-- Complete bidding and move to playing (src/redis/normal_match/id.rs,
NormalMatch::complete_bidding). -/
def NormalMatch.complete_bidding (m : NormalMatch) (trump_suit : String)
    (trump_declarer : Nat) : NormalMatch :=
  if m.status = .bidding then
    { m with
      status := .playing
      trump_suit := some trump_suit
      trump_declarer := some trump_declarer
      current_bidder := none
      current_leader := m.dealer_position.map (fun dealer => (dealer + 1) % 4) }
  else m

/-- Finish bidding with the winning bid (src/redis/normal_match/id.rs,
NormalMatch::finish_bidding). -/
def NormalMatch.finish_bidding (m : NormalMatch) :
    Except String ((Nat × String × Nat) × NormalMatch) :=
  match m.highest_bid_length, m.highest_bidder, m.highest_bid_suit with
  | some bid_length, some bidder, some trump_suit =>
    Except.ok ((bid_length, trump_suit, bidder), m.complete_bidding trump_suit bidder)
  | _, _, _ => Except.error "No valid bid to complete with"

/-- A reachable bidding state: dealer 0, seat 1 has bid (5, hearts), so
seat 2 is to act. -/
def biddingMatch : NormalMatch :=
  { id := "game1"
    pin := 1234
    status := .bidding
    number_of_crosses := 3
    current_cross := 0
    created_timestamp := 0
    dealer_position := some 0
    current_bidder := some 2
    current_leader := none
    trump_suit := none
    trump_declarer := none
    highest_bid_length := some 5
    highest_bidder := some 1
    highest_bid_suit := some "hearts" }

/-- C1: with highest bidder B = 1, passes by seats 2, 3 and 0 - the three
consecutive passes after the bid - do NOT make `make_pass` report
bidding complete; the code only reports completion on a fourth pass by
the highest bidder himself. This contradicts the specification (and the
handlers' own doc comments), which end bidding after three passes
following a bid. -/
theorem three_passes_after_bid_do_not_complete :
    biddingMatch.make_pass 2 =
      Except.ok ((false, false), { biddingMatch with current_bidder := some 3 }) ∧
    ({ biddingMatch with current_bidder := some 3 } : NormalMatch).make_pass 3 =
      Except.ok ((false, false), { biddingMatch with current_bidder := some 0 }) ∧
    ({ biddingMatch with current_bidder := some 0 } : NormalMatch).make_pass 0 =
      Except.ok ((false, false), { biddingMatch with current_bidder := some 1 }) ∧
    ({ biddingMatch with current_bidder := some 1 } : NormalMatch).make_pass 1 =
      Except.ok ((false, true), { biddingMatch with current_bidder := some 2 }) :=
  ⟨rfl, rfl, rfl, rfl⟩

/-- Helper: an error value is never `isOk`. -/
theorem isOk_error_ne_true {ε α : Type} (e : ε) :
    (Except.error e : Except ε α).isOk ≠ true :=
  fun h => Bool.noConfusion h

/-- C6: under the claim's hypotheses (caller's turn, a real suit, length
between 5 and 8), `is_valid_bid` accepts exactly when there is no current
highest bid, or the length is strictly higher, or the length is equal
with a clubs bid over a non-clubs current bid. In particular a clubs bid
at the current length is rejected when the current highest bid is clubs. -/
theorem is_valid_bid_iff (m : NormalMatch) (pos len : Nat) (suit : String)
    (hturn : m.is_player_turn_to_bid pos = true)
    (hsuit : suit = "hearts" ∨ suit = "diamonds" ∨ suit = "clubs" ∨ suit = "spades")
    (hlen5 : 5 ≤ len) (hlen8 : len ≤ 8) :
    (m.is_valid_bid pos len suit).isOk = true ↔
      (m.highest_bid_length = none ∨
       ∃ cur, m.highest_bid_length = some cur ∧
         (cur < len ∨ (len = cur ∧ suit = "clubs" ∧ m.highest_bid_suit ≠ some "clubs"))) := by
  have hstatus : ¬ (m.status ≠ NormalMatchStatus.bidding) := by
    intro hne
    unfold NormalMatch.is_player_turn_to_bid at hturn
    have hand := (Bool.and_eq_true _ _).mp hturn
    exact hne (by simpa using hand.1)
  unfold NormalMatch.is_valid_bid
  rw [if_neg (by rw [hturn]; simp)]
  rw [if_neg hstatus]
  rw [if_neg (by omega)]
  rw [if_neg (by rcases hsuit with h | h | h | h <;> subst h <;> decide)]
  cases hhb : m.highest_bid_length with
  | none =>
    dsimp only
    exact iff_of_true rfl (Or.inl rfl)
  | some cur =>
    dsimp only
    by_cases hgt : cur < len
    · rw [if_pos hgt]
      exact iff_of_true rfl (Or.inr ⟨cur, rfl, Or.inl hgt⟩)
    · rw [if_neg hgt]
      by_cases heq : len = cur
      · rw [if_pos heq]
        by_cases hclubs : suit = "clubs" ∧ m.highest_bid_suit.getD "" ≠ "clubs"
        · rw [if_pos hclubs]
          refine iff_of_true rfl (Or.inr ⟨cur, rfl, Or.inr ⟨heq, hclubs.1, ?_⟩⟩)
          cases hbs : m.highest_bid_suit with
          | none => simp
          | some sbid =>
            have h2 := hclubs.2
            rw [hbs] at h2
            simp only [Option.getD] at h2
            simp [h2]
        · rw [if_neg hclubs]
          refine iff_of_false ?_ ?_
          · split_ifs <;> exact isOk_error_ne_true _
          · intro hcontra
            rcases hcontra with h | ⟨cur2, hc2, hcase⟩
            · exact absurd h (by simp)
            · injection hc2 with hc2
              subst hc2
              rcases hcase with h | ⟨h1, h2, h3⟩
              · exact hgt h
              · apply hclubs
                refine ⟨h2, ?_⟩
                cases hbs : m.highest_bid_suit with
                | none => decide
                | some sbid =>
                  simp only [Option.getD]
                  intro hsb
                  exact h3 (by rw [hbs, hsb])
      · rw [if_neg heq]
        refine iff_of_false (isOk_error_ne_true _) ?_
        intro hcontra
        rcases hcontra with h | ⟨cur2, hc2, hcase⟩
        · exact absurd h (by simp)
        · injection hc2 with hc2
          subst hc2
          rcases hcase with h | ⟨h1, _, _⟩
          · exact hgt h
          · exact heq h1

/-- Witness for C6: in the concrete bidding state with highest bid
(5, hearts), a clubs bid at the same length 5 is accepted. -/
theorem is_valid_bid_iff_witness :
    (biddingMatch.is_valid_bid 2 5 "clubs").isOk = true ↔
      (biddingMatch.highest_bid_length = none ∨
       ∃ cur, biddingMatch.highest_bid_length = some cur ∧
         (cur < 5 ∨ (5 = cur ∧ "clubs" = "clubs" ∧
           biddingMatch.highest_bid_suit ≠ some "clubs"))) :=
  is_valid_bid_iff biddingMatch 2 5 "clubs" (by decide)
    (Or.inr (Or.inr (Or.inl rfl))) (by decide) (by decide)

/-! ## Game-wide trick tracking and the complete-game handler
(src/game/trick.rs, src/api/handlers/game_scoring.rs) -/

/-- Game-wide trick tracking (src/game/trick.rs, GameTrickState). -/
structure GameTrickState where
  current_trick : TrickState
  tricks_won : Nat × Nat
  points_accumulated : Nat × Nat
  completed_tricks : List TrickState
  trump_team : Nat × Nat
  game_complete : Bool
deriving DecidableEq, Repr

/-- Individual-vol check (src/game/trick.rs,
GameTrickState::check_individual_vol): the trump team won all 8 tricks
and a single trump-team player won every one. -/
def GameTrickState.check_individual_vol (g : GameTrickState) : Bool :=
  if g.tricks_won.1 ≠ 8 ∧ g.tricks_won.2 ≠ 8 then false
  else
    let trick_winners := g.completed_tricks.filterMap (fun t => t.trick_winner)
    if g.tricks_won.1 = 8 then
      ((trick_winners.filter (fun w => decide (w = g.trump_team.1))).length = 8 ∨
       (trick_winners.filter (fun w => decide (w = g.trump_team.2))).length = 8 : Bool)
    else false

/-- Final scoring data of a completed game (src/game/trick.rs,
GameTrickState::get_final_scoring). -/
def GameTrickState.get_final_scoring (g : GameTrickState) : Except String SjavsScoring :=
  if ¬ g.game_complete then
    Except.error "Game not yet complete"
  else
    Except.ok
      { trump_team_points := g.points_accumulated.1
        opponent_team_points := g.points_accumulated.2
        trump_team_tricks := g.tricks_won.1
        opponent_team_tricks := g.tricks_won.2
        trump_suit := g.current_trick.trump_suit
        individual_vol := g.check_individual_vol }

/-- Cross scores reported by the API (src/api/schemas.rs, CrossScores). -/
structure CrossScores where
  trump_team_remaining : Int
  opponent_team_remaining : Int
  trump_team_on_hook : Bool
  opponent_team_on_hook : Bool
  trump_team_crosses : Nat
  opponent_team_crosses : Nat
deriving DecidableEq, Repr

/-- Outcome of the complete-game handler: the computed game result, the
cross scores it reports, and the updated match record. -/
structure GameCompleteOutcome where
  game_result : GameResult
  cross_scores : CrossScores
  updated_match : NormalMatch
deriving DecidableEq, Repr

/-- The state-transforming core of the complete-game handler
(src/api/handlers/game_scoring.rs, complete_game_handler), after the
Redis fetches: validate completion, compute the Sjavs scoring, validate
the 120-point total, compute the game result, build the (placeholder)
cross scores - the handler's cross/rubber application is a TODO and it
hard-codes 24/24 with zero crosses - and mark the match completed. -/
def complete_game (m : NormalMatch) (trick_state : GameTrickState) :
    Except String GameCompleteOutcome :=
  if ¬ trick_state.game_complete then
    Except.error "Game not complete"
  else
    match trick_state.get_final_scoring with
    | Except.error e => Except.error ("Failed to calculate scoring: " ++ e)
    | Except.ok sjavs_scoring =>
      if ¬ sjavs_scoring.validate_total_points then
        Except.error "Invalid point totals in completed game"
      else
        match sjavs_scoring.calculate_game_result with
        | none => Except.error "Invalid point total"
        | some game_result =>
          Except.ok
            { game_result := game_result
              cross_scores :=
                { trump_team_remaining := 24
                  opponent_team_remaining := 24
                  trump_team_on_hook := false
                  opponent_team_on_hook := false
                  trump_team_crosses := 0
                  opponent_team_crosses := 0 }
              updated_match := { m with status := .completed } }

/-- A completed game: trump team took 90 points and 5 tricks in hearts. -/
def finishedTricks : GameTrickState :=
  { current_trick :=
      { trick_number := 8
        lead_suit := some Suit.hearts
        cards_played := []
        current_player := 0
        trick_winner := some 0
        is_complete := true
        game_id := "game1"
        trump_suit := "hearts" }
    tricks_won := (5, 3)
    points_accumulated := (90, 30)
    completed_tricks := []
    trump_team := (0, 2)
    game_complete := true }

/-- A match in the playing phase, about to be completed. -/
def playingMatch : NormalMatch :=
  { biddingMatch with
    status := .playing
    current_bidder := none
    current_leader := some 1
    trump_suit := some "hearts"
    trump_declarer := some 1 }

/-- C4: the complete-game handler computes the scoring (here a 4-point
trump-team win) and marks the match completed, but it never applies the
game result to the cross state: the cross scores it reports and publishes
are the hard-coded placeholder 24/24 with zero crosses, even though
applying the computed result to a fresh cross state would reduce the
trump team's counter to 20. The cross update the specification describes
is an unimplemented TODO in the handler. -/
theorem complete_game_ignores_cross_state :
    (complete_game playingMatch finishedTricks).map
        (fun o => o.game_result.trump_team_score) = Except.ok 4 ∧
    (complete_game playingMatch finishedTricks).map
        (fun o => o.cross_scores.trump_team_remaining) = Except.ok 24 ∧
    (complete_game playingMatch finishedTricks).map
        (fun o => o.cross_scores.opponent_team_remaining) = Except.ok 24 ∧
    (complete_game playingMatch finishedTricks).map
        (fun o => o.cross_scores.trump_team_crosses) = Except.ok 0 ∧
    (complete_game playingMatch finishedTricks).map
        (fun o => o.updated_match.status) = Except.ok NormalMatchStatus.completed ∧
    (complete_game playingMatch finishedTricks).map
        (fun o => (((CrossState.new "m").apply_game_result o.game_result).1.trump_team_score)) =
      Except.ok 20 :=
  ⟨rfl, rfl, rfl, rfl, rfl, rfl⟩

/-! ## Deck and dealing (src/game/deck.rs) -/

/-- Numeric value of a rank, as the Rust enum discriminants 7..14. -/
def Rank.val : Rank → Nat
  | .seven => 7
  | .eight => 8
  | .nine => 9
  | .ten => 10
  | .jack => 11
  | .queen => 12
  | .king => 13
  | .ace => 14

/-- Three-way comparison of naturals, as Rust `cmp` on `u8`. -/
def natCmp (a b : Nat) : Ordering :=
  if a < b then .lt else if a = b then .eq else .gt

/-- Three-way comparison of characters by code point. -/
def charCmp (a b : Char) : Ordering :=
  natCmp a.toNat b.toNat

/-- Lexicographic three-way comparison of character lists, as Rust `cmp`
on the ASCII strings used here. -/
def charListCmp : List Char → List Char → Ordering
  | [], [] => .eq
  | [], _ :: _ => .lt
  | _ :: _, [] => .gt
  | a :: as, b :: bs =>
    match charCmp a b with
    | .eq => charListCmp as bs
    | o => o

/-- Three-way comparison of strings. -/
def strCmp (a b : String) : Ordering :=
  charListCmp a.data b.data

/-- The hand-sorting comparator (src/game/deck.rs, the `sort_by` closure
in Deck::deal): by suit display string, then by rank value. -/
def cardCmp (a b : Card) : Ordering :=
  (strCmp a.suit.toStr b.suit.toStr).then (natCmp a.rank.val b.rank.val)

/-- Insert a card into a list sorted by `cardCmp`. -/
def insertCard (c : Card) : List Card → List Card
  | [] => [c]
  | x :: xs => if cardCmp c x = Ordering.lt then c :: x :: xs else x :: insertCard c xs

/-- Sorting of a hand by the `cardCmp` comparator. The Rust `sort_by` is a
stable sort; a hand never holds two cards with the same suit and rank, so
any sort by this comparator - here an insertion sort, chosen so that the
function computes by structural recursion - yields the same list. -/
def sortHand : List Card → List Card
  | [] => []
  | c :: cs => insertCard c (sortHand cs)

/-- Inserting a card grows the length by one. -/
theorem length_insertCard (c : Card) (l : List Card) :
    (insertCard c l).length = l.length + 1 := by
  induction l with
  | nil => rfl
  | cons x xs ih =>
    simp only [insertCard]
    split_ifs
    · simp
    · simp [ih]

/-- Sorting preserves the length. -/
theorem length_sortHand (l : List Card) : (sortHand l).length = l.length := by
  induction l with
  | nil => rfl
  | cons c cs ih => simp [sortHand, length_insertCard, ih]

/-- The four hands produced by one deal (src/game/deck.rs, the
`[Vec<Card>; 4]` result of Deck::deal). -/
structure Hands4 where
  p0 : List Card
  p1 : List Card
  p2 : List Card
  p3 : List Card
deriving DecidableEq, Repr

/-- Filler card for the (never-reached) out-of-range index of the dealt
deck. -/
def defaultCard : Card := Card.mk Suit.hearts Rank.seven

/-- Round-robin hand of player `p` from a 32-card deck, sorted for
display (src/game/deck.rs, Deck::deal: `hands[i % 4].push(cards[i])`
followed by `sort_by`). -/
def dealHand (cards : List Card) (p : Nat) : List Card :=
  sortHand (((List.range 32).filter (fun i => i % 4 = p)).map
    (fun i => cards.getD i defaultCard))

/-- Deal a deck to 4 players (src/game/deck.rs, Deck::deal). -/
def Deck.deal (cards : List Card) : Except String Hands4 :=
  if cards.length ≠ 32 then
    Except.error "Deck must have exactly 32 cards to deal"
  else
    Except.ok ⟨dealHand cards 0, dealHand cards 1, dealHand cards 2, dealHand cards 3⟩

/-- Trump counts of a hand for the four candidate trump suits, in the
order hearts, diamonds, clubs, spades (src/game/deck.rs,
Deck::calculate_trump_counts). -/
def Deck.calculate_trump_counts (hand : List Card) : List Nat :=
  [Suit.hearts, Suit.diamonds, Suit.clubs, Suit.spades].map
    (fun trump_suit => (hand.filter (fun card => card.is_trump trump_suit)).length)

/-- At least one hand can open the bidding with 5 or more trumps in some
suit (src/game/deck.rs, Deck::has_valid_hands). -/
def Deck.has_valid_hands (hands : Hands4) : Bool :=
  [hands.p0, hands.p1, hands.p2, hands.p3].any (fun hand =>
    (Deck.calculate_trump_counts hand).any (fun count => decide (5 ≤ count)))

/-- One shuffle-and-deal attempt succeeds: the deal is well-formed and
some hand can bid. -/
def attemptValid (cards : List Card) : Bool :=
  match Deck.deal cards with
  | Except.ok hands => Deck.has_valid_hands hands
  | Except.error _ => false

/-- The bounded reshuffle loop of src/game/deck.rs,
Deck::deal_until_valid, with the random shuffles supplied by an oracle
giving the deck contents of each attempt; `fuel` is the number of
attempts left out of MAX_ATTEMPTS = 1000, and exhausting it - the
source's `panic!` - is `none`. -/
def dealAttempts (oracle : Nat → List Card) (start fuel : Nat) : Option Hands4 :=
  match fuel with
  | 0 => none
  | Nat.succ fuel' =>
    match Deck.deal (oracle start) with
    | Except.ok hands =>
      if Deck.has_valid_hands hands then some hands
      else dealAttempts oracle (start + 1) fuel'
    | Except.error _ => dealAttempts oracle (start + 1) fuel'

/-- Deal until some hand can bid (src/game/deck.rs,
Deck::deal_until_valid): at most 1000 attempts. -/
def Deck.deal_until_valid (oracle : Nat → List Card) : Option Hands4 :=
  dealAttempts oracle 0 1000

/-- Helper: a successful deal yields four 8-card hands. -/
theorem deal_ok_lengths (cards : List Card) (hs : Hands4)
    (h : Deck.deal cards = Except.ok hs) :
    hs.p0.length = 8 ∧ hs.p1.length = 8 ∧ hs.p2.length = 8 ∧ hs.p3.length = 8 := by
  have hhand : ∀ p, p < 4 → (dealHand cards p).length = 8 := by
    intro p hp
    unfold dealHand
    rw [length_sortHand, List.length_map]
    interval_cases p <;> decide
  unfold Deck.deal at h
  by_cases h32 : cards.length ≠ 32
  · rw [if_pos h32] at h
    exact absurd h (by simp)
  · rw [if_neg h32] at h
    injection h with h
    subst h
    exact ⟨hhand 0 (by omega), hhand 1 (by omega), hhand 2 (by omega), hhand 3 (by omega)⟩

/-- Helper: the attempt loop only returns validated 8-card hands, and,
when it gives up, every attempt in its window failed. -/
theorem dealAttempts_spec (oracle : Nat → List Card) (fuel : Nat) :
    ∀ start,
    (∀ hs, dealAttempts oracle start fuel = some hs →
      Deck.has_valid_hands hs = true ∧
      hs.p0.length = 8 ∧ hs.p1.length = 8 ∧ hs.p2.length = 8 ∧ hs.p3.length = 8) ∧
    (dealAttempts oracle start fuel = none →
      ∀ i, start ≤ i → i < start + fuel → attemptValid (oracle i) = false) := by
  induction fuel with
  | zero =>
    intro start
    constructor
    · intro hs h
      simp [dealAttempts] at h
    · intro _ i h1 h2
      omega
  | succ fuel ih =>
    intro start
    constructor
    · intro hs h
      unfold dealAttempts at h
      cases hd : Deck.deal (oracle start) with
      | ok hands =>
        rw [hd] at h
        dsimp only at h
        by_cases hv : Deck.has_valid_hands hands = true
        · rw [if_pos hv] at h
          injection h with h
          subst h
          exact ⟨hv, deal_ok_lengths _ _ hd⟩
        · rw [if_neg hv] at h
          exact ((ih (start + 1)).1) hs h
      | error e =>
        rw [hd] at h
        dsimp only at h
        exact ((ih (start + 1)).1) hs h
    · intro hnone i h1 h2
      unfold dealAttempts at hnone
      cases hd : Deck.deal (oracle start) with
      | ok hands =>
        rw [hd] at hnone
        dsimp only at hnone
        by_cases hv : Deck.has_valid_hands hands = true
        · rw [if_pos hv] at hnone
          exact absurd hnone (by simp)
        · rw [if_neg hv] at hnone
          by_cases hi : i = start
          · subst hi
            simp only [attemptValid, hd]
            exact Bool.eq_false_iff.mpr hv
          · exact ((ih (start + 1)).2) hnone i (by omega) (by omega)
      | error e =>
        rw [hd] at hnone
        dsimp only at hnone
        by_cases hi : i = start
        · subst hi
          simp [attemptValid, hd]
        · exact ((ih (start + 1)).2) hnone i (by omega) (by omega)

/-- C8: `deal_until_valid` is bounded by the 1000-attempt ceiling by
construction (the loop counts attempts and aborts): whatever the shuffle
oracle produces, every returned hand tuple consists of four 8-card hands
of which at least one has 5 or more trumps in some candidate suit
(permanent trumps plus suit-matching cards), and the only way no tuple
is returned - the source's fatal `panic!` - is that all 1000 attempts
failed. -/
theorem deal_until_valid_spec (oracle : Nat → List Card) :
    (∀ hs, Deck.deal_until_valid oracle = some hs →
      Deck.has_valid_hands hs = true ∧
      hs.p0.length = 8 ∧ hs.p1.length = 8 ∧ hs.p2.length = 8 ∧ hs.p3.length = 8) ∧
    (Deck.deal_until_valid oracle = none →
      ∀ i, i < 1000 → attemptValid (oracle i) = false) := by
  constructor
  · exact (dealAttempts_spec oracle 1000 0).1
  · intro hnone i h2
    exact (dealAttempts_spec oracle 1000 0).2 hnone i (by omega) (by omega)

/-- A fixed deck arrangement in which player 0 receives all 8 hearts:
slots 0, 4, ..., 28 hold the hearts and the remaining slots hold the
diamonds, clubs and spades. -/
def goodDeck : List Card :=
  [Card.mk Suit.hearts Rank.seven, Card.mk Suit.diamonds Rank.seven,
   Card.mk Suit.clubs Rank.seven, Card.mk Suit.spades Rank.seven,
   Card.mk Suit.hearts Rank.eight, Card.mk Suit.diamonds Rank.eight,
   Card.mk Suit.clubs Rank.eight, Card.mk Suit.spades Rank.eight,
   Card.mk Suit.hearts Rank.nine, Card.mk Suit.diamonds Rank.nine,
   Card.mk Suit.clubs Rank.nine, Card.mk Suit.spades Rank.nine,
   Card.mk Suit.hearts Rank.ten, Card.mk Suit.diamonds Rank.ten,
   Card.mk Suit.clubs Rank.ten, Card.mk Suit.spades Rank.ten,
   Card.mk Suit.hearts Rank.jack, Card.mk Suit.diamonds Rank.jack,
   Card.mk Suit.clubs Rank.jack, Card.mk Suit.spades Rank.jack,
   Card.mk Suit.hearts Rank.queen, Card.mk Suit.diamonds Rank.queen,
   Card.mk Suit.clubs Rank.queen, Card.mk Suit.spades Rank.queen,
   Card.mk Suit.hearts Rank.king, Card.mk Suit.diamonds Rank.king,
   Card.mk Suit.clubs Rank.king, Card.mk Suit.spades Rank.king,
   Card.mk Suit.hearts Rank.ace, Card.mk Suit.diamonds Rank.ace,
   Card.mk Suit.clubs Rank.ace, Card.mk Suit.spades Rank.ace]

/-- An oracle that always shuffles into `goodDeck`. -/
def goodOracle : Nat → List Card := fun _ => goodDeck

/-- The hands dealt from the good oracle. -/
def dealtHands : Hands4 :=
  (Deck.deal_until_valid goodOracle).getD ⟨[], [], [], []⟩

/-- Witness for C8: the good oracle converges and returns four validated
8-card hands. -/
theorem deal_until_valid_spec_witness :
    Deck.has_valid_hands dealtHands = true ∧
    dealtHands.p0.length = 8 ∧ dealtHands.p1.length = 8 ∧
    dealtHands.p2.length = 8 ∧ dealtHands.p3.length = 8 :=
  (deal_until_valid_spec goodOracle).1 dealtHands (by decide)

end Sjavs
